import Mathlib

/-! # Verification of the bottom_feeder article pipeline

Shallow embedding of `src/models.py` and `src/scraper.py`:
a fetch → extract → dedupe-check → persist → analyze → persist-analysis
pipeline over a two-table relational store.  External effects (the HTTP
fetch, the remote analysis service, storage-layer commit failures) are
supplied by an explicit environment; the shared SQLAlchemy session is
modelled by the store contents plus a `broken` flag recording the
pending-rollback state a session enters when a flush/commit fails and
`rollback()` has not yet been called (any further query on such a
session raises until a rollback).
-/

namespace BottomFeeder

/-- An `articles` table row (src/models.py, class Article): integer primary
key, unique non-null url, non-null title, publication date and body text. -/
structure Article where
  id : Nat
  url : String
  title : String
  publication_date : String
  body_text : String
deriving Repr, DecidableEq

/-- An `analysis_results` table row (src/models.py, class AnalysisResult):
integer primary key, unique non-null foreign key `article_id`, and the three
extracted string fields. -/
structure AnalysisResult where
  id : Nat
  article_id : Nat
  company_name : String
  ceo_name : String
  summary : String
deriving Repr, DecidableEq

/-- The committed contents of the SQLite database: both tables, rows in
insertion order (SQLite assigns rowids increasingly, queries return rows in
table order). -/
structure Store where
  articles : List Article
  analyses : List AnalysisResult
deriving Repr, DecidableEq

/-- The state held by the module-level SQLAlchemy `session` of scraper.py
line 32: the committed store plus whether the session is in the
pending-rollback state (a failed flush/commit leaves the session unusable —
every subsequent operation raises — until `session.rollback()` is called). -/
structure DbState where
  store : Store
  broken : Bool
deriving Repr, DecidableEq

/-- The next primary key SQLite assigns on insert: one more than the largest
existing rowid (1 on an empty table). -/
def nextId (ids : List Nat) : Nat :=
  ids.foldr (fun a b => max a b) 0 + 1

/-! ## Parsed HTML

The extractor receives `BeautifulSoup(response.text, 'html.parser')`; we
embed the parsed document as an element tree.  An element carries its tag
name, the whitespace-split list of its `class` attribute values, and its
children; text nodes carry strings. -/

/-- A parsed HTML node as BeautifulSoup exposes it to the extractor. -/
inductive Node where
  | text (s : String)
  | elem (tag : String) (classes : List String) (children : List Node)

mutual

/-- All strings under a node in document order (BeautifulSoup `.strings`). -/
def nodeTexts : Node → List String
  | .text s => [s]
  | .elem _ _ children => nodeListTexts children

/-- All strings under a forest of nodes in document order. -/
def nodeListTexts : List Node → List String
  | [] => []
  | n :: rest => nodeTexts n ++ nodeListTexts rest

end

mutual

/-- A node followed by all its descendants, in document (preorder) order. -/
def subtree : Node → List Node
  | .text s => [.text s]
  | .elem t c children => .elem t c children :: subtreeList children

/-- Preorder traversal of a forest. -/
def subtreeList : List Node → List Node
  | [] => []
  | n :: rest => subtree n ++ subtreeList rest

end

/-- The descendants of a node in document order, the node itself excluded —
the nodes BeautifulSoup's `find`/`find_all` search when called on a tag or
on the soup document root. -/
def descendants : Node → List Node
  | .text _ => []
  | .elem _ _ children => subtreeList children

/-- Python `str.strip()`: leading and trailing whitespace removed. -/
def pyStrip (s : String) : String :=
  String.mk (((s.toList.dropWhile Char.isWhitespace).reverse.dropWhile
    Char.isWhitespace).reverse)

/-- `tag.get_text(strip=True)`: every string under the tag, each stripped,
the ones that strip to nothing dropped, concatenated. -/
def getTextStrip (n : Node) : String :=
  String.join (((nodeTexts n).map pyStrip).filter (fun s => s ≠ ""))

/-- Does a node match `find(tag)` — an element with this tag name. -/
def matchesTag (tag : String) (n : Node) : Bool :=
  match n with
  | .elem t _ _ => t = tag
  | .text _ => false

/-- Does a node match `find(tag, class_=pat)`.  BeautifulSoup matches a
string `class_` pattern against each individual class value and against the
full space-joined class attribute (the documented way to match several CSS
classes at once, order-sensitive). -/
def matchesTagClass (tag pat : String) (n : Node) : Bool :=
  match n with
  | .elem t classes _ => t = tag && (classes.contains pat || String.intercalate " " classes = pat)
  | .text _ => false

/-- `soup.find(tag)`: the first matching descendant in document order. -/
def findTag (doc : Node) (tag : String) : Option Node :=
  (descendants doc).find? (matchesTag tag)

/-- `soup.find(tag, class_=pat)`: the first matching descendant. -/
def findTagClass (doc : Node) (tag pat : String) : Option Node :=
  (descendants doc).find? (matchesTagClass tag pat)

/-- `tag.find_all(t)`: every matching descendant in document order. -/
def findAllTag (n : Node) (tag : String) : List Node :=
  (descendants n).filter (matchesTag tag)

/-- The three mandatory fields the extractor produces. -/
structure Extracted where
  title : String
  pub_date : String
  body_text : String
deriving Repr, DecidableEq

/-- The extraction phase of `fetch_and_store_article` (scraper.py lines
124-166): title from the first `<h1>`, publication date from the first
`<span class='d-ib mr-05'>`, body from the `<p>` descendants of the first
`<div class='kInstance-Body instance-box-mb'>` joined by blank lines; any
missing selector match, or a body container with no paragraphs, aborts
(the function returns with no value). -/
def extractArticle (doc : Node) : Option Extracted :=
  match findTag doc "h1" with
  | none => none
  | some title_tag =>
    match findTagClass doc "span" "d-ib mr-05" with
    | none => none
    | some pub_date_tag =>
      match findTagClass doc "div" "kInstance-Body instance-box-mb" with
      | none => none
      | some body_div =>
        let paragraphs := findAllTag body_div "p"
        if paragraphs.isEmpty then none
        else some
          { title := getTextStrip title_tag
            pub_date := getTextStrip pub_date_tag
            body_text := String.intercalate "\n\n" (paragraphs.map getTextStrip) }

/-! ## The analyzer client (scraper.py `analyze_article`) -/

/-- The character `{` (written by code point to keep it out of string/char
literals). -/
def lbrace : Char := Char.ofNat 123

/-- The character `}`. -/
def rbrace : Char := Char.ofNat 125

/-- The character `"`. -/
def dquote : Char := Char.ofNat 34

/-- The character `:`. -/
def colonChar : Char := Char.ofNat 58

/-- The character `,`. -/
def commaChar : Char := Char.ofNat 44

/-- `re.search(r'\x7b.*\x7d', reply, re.DOTALL)`: the leftmost, greedy
match runs from the first `\x7b` to the last `\x7d` of the whole string and
exists exactly when that last `\x7d` lies strictly after that first
`\x7b`. -/
def extractJsonSpan (s : String) : Option String :=
  let cs := s.toList
  match cs.findIdx? (fun c => c = lbrace) with
  | none => none
  | some i =>
    match cs.reverse.findIdx? (fun c => c = rbrace) with
    | none => none
    | some k =>
      let j := cs.length - 1 - k
      if i < j then some (String.mk ((cs.drop i).take (j - i + 1))) else none

/-- Drop leading JSON whitespace. -/
def skipWs : List Char → List Char
  | [] => []
  | c :: rest => if c.isWhitespace then skipWs rest else c :: rest

/-- The character `\`. -/
def backslashChar : Char := Char.ofNat 92

/-- Parse a JSON string literal: a double quote, its contents, the closing
double quote.  Raw control characters (below space) are illegal inside a
strict-mode `json.loads` string, and escape sequences are not modelled
(the service contract the prompt requests has plain text values), so a
content with a control character or a backslash is rejected; every literal
this parser does accept denotes exactly the same text under `json.loads`. -/
def parseStringLit : List Char → Option (String × List Char)
  | [] => none
  | c :: rest =>
    if c = dquote then
      let content := rest.takeWhile (fun d => d ≠ dquote)
      if content.all (fun d => 32 ≤ d.toNat && d ≠ backslashChar) then
        match rest.dropWhile (fun d => d ≠ dquote) with
        | d :: rest2 => if d = dquote then some (String.mk content, rest2) else none
        | [] => none
      else none
    else none

/-- Parse a non-empty comma-separated list of `"key": "value"` members.
The fuel argument bounds the recursion; any fuel at least the input length
suffices. -/
def parseMembers : Nat → List Char → Option (List (String × String) × List Char)
  | 0, _ => none
  | Nat.succ fuel, cs =>
    match parseStringLit (skipWs cs) with
    | none => none
    | some (k, cs1) =>
      match skipWs cs1 with
      | [] => none
      | c :: cs2 =>
        if c = colonChar then
          match parseStringLit (skipWs cs2) with
          | none => none
          | some (v, cs3) =>
            match skipWs cs3 with
            | [] => some ([(k, v)], [])
            | c2 :: cs4 =>
              if c2 = commaChar then
                match parseMembers fuel cs4 with
                | none => none
                | some (ms, cs5) => some ((k, v) :: ms, cs5)
              else some ([(k, v)], c2 :: cs4)
        else none

/-- `json.loads` on the extracted span, restricted to the shape the prompt
demands of the service (a flat object of string keys and string values);
anything else is malformed and raises `JSONDecodeError`, i.e. yields
`none`.  Key/value pairs are kept in textual order. -/
def parseJsonObject (s : String) : Option (List (String × String)) :=
  match skipWs s.toList with
  | [] => none
  | c :: rest =>
    if c = lbrace then
      match skipWs rest with
      | [] => none
      | d :: rest2 =>
        if d = rbrace then
          if (skipWs rest2).isEmpty then some [] else none
        else
          match parseMembers (rest.length + 1) (d :: rest2) with
          | none => none
          | some (ms, rest3) =>
            match skipWs rest3 with
            | [] => none
            | e :: rest4 =>
              if e = rbrace then
                if (skipWs rest4).isEmpty then some ms else none
              else none
    else none

/-- Python `dict(pairs).get(k)`: the value of the last binding of `k`, if
any (later duplicates win when `json.loads` builds the dict). -/
def dictGetOpt (m : List (String × String)) (k : String) : Option String :=
  (m.reverse.find? (fun p => p.1 = k)).map (fun p => p.2)

/-- Python `dict(pairs).get(k, d)`. -/
def dictGet (m : List (String × String)) (k : String) (d : String) : String :=
  (dictGetOpt m k).getD d

/-- `analyze_article(body_text)` (scraper.py lines 43-108).  The remote
completion service is modelled by `svc`, mapping the article body (the only
varying part of the fixed prompt) to the reply content on success and to
`none` on a transport/HTTP-status failure; the code then strips the reply,
locates the first-to-last brace span, and JSON-parses it, returning `None`
(here `none`) on any failure. -/
def analyze_article (svc : String → Option String) (body_text : String) :
    Option (List (String × String)) :=
  match svc body_text with
  | none => none
  | some content =>
    match extractJsonSpan (pyStrip content) with
    | none => none
    | some json_str => parseJsonObject json_str

/-- The construction of an `AnalysisResult` row from a parsed analysis
mapping (identical at scraper.py lines 182-187 and 220-225): each field is
`analysis.get(key, "")`. -/
def mkAnalysisResult (rid article_id : Nat) (analysis : List (String × String)) :
    AnalysisResult :=
  { id := rid
    article_id := article_id
    company_name := dictGet analysis "company_name" ""
    ceo_name := dictGet analysis "ceo_name" ""
    summary := dictGet analysis "summary" "" }

/-- The per-URL environment: the outcome of the HTTP GET (`none` for a
network error or non-2xx status, otherwise the parsed document), the
analysis service's behaviour, and whether the storage layer fails the
article-insert commit or the analysis-insert commit. -/
structure Env where
  fetch : Option Node
  svc : String → Option String
  commitArticleFails : Bool
  commitAnalysisFails : Bool

/-- `fetch_and_store_article(url)` (scraper.py lines 110-248) as a state
transition on the shared session: returns the article id reported to the
driver (`none` when the function returns without a value) and the new
session state.

Branches, in source order:
* fetch failure → caught by the outer handlers (lines 245-248), no value.
* extraction failure (lines 124-166) → early return, no value, store untouched.
* the dedupe query (line 170) runs on the shared session: if a previous
  commit failure left the session pending-rollback, the query raises and is
  caught at line 197 → no value, session still broken.
* article exists (lines 171-196): if its analysis exists, return its id;
  otherwise analyze the freshly extracted body text (line 179).  The insert
  is guarded by `if analysis:` (line 180): a `None` result and an empty
  parsed dict — falsy in Python — both skip the insert and still return the
  id (line 196).  Otherwise insert the result and commit — a commit failure
  here is caught at line 197 with NO rollback (the write is discarded but
  the session is left pending-rollback).
* new article (lines 201-243): insert+commit the article (a commit failure
  is rolled back at line 238, no value); analyze the body text; when the
  result is truthy (line 218: non-`None` and non-empty) insert+commit the
  analysis (a commit failure is rolled back at line 238, no value, the
  already-committed article stays); return the new article's id. -/
def fetch_and_store_article (env : Env) (url : String) (db : DbState) :
    Option Nat × DbState :=
  match env.fetch with
  | none => (none, db)
  | some doc =>
    match extractArticle doc with
    | none => (none, db)
    | some ex =>
      if db.broken then (none, db)
      else
        match db.store.articles.find? (fun a => a.url = url) with
        | some existing =>
          match db.store.analyses.find? (fun r => r.article_id = existing.id) with
          | some _ => (some existing.id, db)
          | none =>
            match analyze_article env.svc ex.body_text with
            | none => (some existing.id, db)
            | some analysis =>
              if analysis.isEmpty then (some existing.id, db)
              else if env.commitAnalysisFails then
                (none, { db with broken := true })
              else
                let r := mkAnalysisResult (nextId (db.store.analyses.map (fun x => x.id)))
                  existing.id analysis
                (some existing.id,
                  { db with store := { db.store with analyses := db.store.analyses ++ [r] } })
        | none =>
          if env.commitArticleFails then
            (none, { store := db.store, broken := false })
          else
            let aid := nextId (db.store.articles.map (fun a => a.id))
            let article : Article :=
              { id := aid, url := url, title := ex.title
                publication_date := ex.pub_date, body_text := ex.body_text }
            let store1 : Store :=
              { db.store with articles := db.store.articles ++ [article] }
            match analyze_article env.svc ex.body_text with
            | none => (some aid, { store := store1, broken := false })
            | some analysis =>
              if analysis.isEmpty then (some aid, { store := store1, broken := false })
              else if env.commitAnalysisFails then
                (none, { store := store1, broken := false })
              else
                let r := mkAnalysisResult (nextId (store1.analyses.map (fun x => x.id)))
                  aid analysis
                (some aid,
                  { store := { store1 with analyses := store1.analyses ++ [r] }
                    broken := false })

/-- The states the shared session can reach from the bootstrap state (fresh
database, healthy session) under any sequence of pipeline runs — the
driver's loop is one such sequence. -/
inductive Reachable : DbState → Prop where
  | init : Reachable { store := { articles := [], analyses := [] }, broken := false }
  | step (env : Env) (url : String) {db : DbState} :
      Reachable db → Reachable (fetch_and_store_article env url db).2

/-! ## Concrete fixtures used by witnesses and counterexamples -/

/-- A document carrying all three required selectors, its body one
paragraph. -/
def mkDoc (titleStr dateStr bodyStr : String) : Node :=
  .elem "html" [] [
    .elem "h1" [] [.text titleStr],
    .elem "span" ["d-ib", "mr-05"] [.text dateStr],
    .elem "div" ["kInstance-Body", "instance-box-mb"] [
      .elem "p" [] [.text bodyStr]]]

/-- A document with no `<h1>` at all. -/
def docNoTitle : Node := .elem "html" [] [.text "nothing here"]

/-- The empty bootstrap database with a healthy session. -/
def dbEmpty : DbState := { store := { articles := [], analyses := [] }, broken := false }

/-! ## Helper lemmas -/

theorem le_foldrMax (x : Nat) (l : List Nat) (hx : x ∈ l) :
    x ≤ l.foldr (fun a b => max a b) 0 := by
  induction l with
  | nil => cases hx
  | cons y ys ih =>
    rcases List.mem_cons.1 hx with rfl | h
    · exact Nat.le_max_left _ _
    · exact Nat.le_trans (ih h) (Nat.le_max_right _ _)

theorem lt_nextId (x : Nat) (l : List Nat) (hx : x ∈ l) : x < nextId l := by
  have := le_foldrMax x l hx
  unfold nextId
  omega

/-! ## Claims -/

/-- Claim C10: any document whose first `<h1>` strips to "Test Title",
whose first date span and body container exist, and whose body container's
paragraph descendants strip to "A." and "B.", extracts to title
"Test Title" and body "A.\n\nB." — the paragraph texts trimmed and joined
by a blank line. -/
theorem c10_extraction_example (doc t d b : Node)
    (ht : findTag doc "h1" = some t)
    (htitle : getTextStrip t = "Test Title")
    (hd : findTagClass doc "span" "d-ib mr-05" = some d)
    (hb : findTagClass doc "div" "kInstance-Body instance-box-mb" = some b)
    (hp : (findAllTag b "p").map getTextStrip = ["A.", "B."]) :
    extractArticle doc = some
      { title := "Test Title", pub_date := getTextStrip d, body_text := "A.\n\nB." } := by
  unfold extractArticle
  rw [ht, hd, hb]
  have hne : (findAllTag b "p").isEmpty = false := by
    cases hps : findAllTag b "p" with
    | nil => rw [hps] at hp; simp at hp
    | cons x xs => simp [List.isEmpty]
  simp only [hne, Bool.false_eq_true, if_false, hp, htitle]
  rfl

/-- The C10 test document: title heading, date span, and a body container
with two paragraphs "A." and "B.". -/
def docC10 : Node :=
  .elem "html" [] [
    .elem "h1" [] [.text " Test Title "],
    .elem "span" ["d-ib", "mr-05"] [.text "1 Jan 2025"],
    .elem "div" ["kInstance-Body", "instance-box-mb"] [
      .elem "p" [] [.text " A. "],
      .elem "p" [] [.text "B."]]]

/-- Closed witness for C10 at a concrete two-paragraph document. -/
theorem c10_extraction_example_witness :
    extractArticle docC10 = some
      { title := "Test Title", pub_date := "1 Jan 2025", body_text := "A.\n\nB." } := by
  have h := c10_extraction_example docC10
    (.elem "h1" [] [.text " Test Title "])
    (.elem "span" ["d-ib", "mr-05"] [.text "1 Jan 2025"])
    (.elem "div" ["kInstance-Body", "instance-box-mb"] [
      .elem "p" [] [.text " A. "],
      .elem "p" [] [.text "B."]])
    rfl (by decide) rfl rfl (by decide)
  exact h

/-- Claim C5: when the fetched document lacks the title selector, or the
date selector, or the body container, or its body container has no
paragraph children, extraction fails: the run returns no identity and the
session state — store included — is exactly what it was. -/
theorem c5_extraction_failure_stores_nothing (env : Env) (url : String)
    (db : DbState) (doc : Node) (hfetch : env.fetch = some doc)
    (hfail : findTag doc "h1" = none ∨
      findTagClass doc "span" "d-ib mr-05" = none ∨
      findTagClass doc "div" "kInstance-Body instance-box-mb" = none ∨
      ∃ b, findTagClass doc "div" "kInstance-Body instance-box-mb" = some b ∧
        findAllTag b "p" = []) :
    fetch_and_store_article env url db = (none, db) := by
  have hex : extractArticle doc = none := by
    unfold extractArticle
    rcases hfail with h | h | h | ⟨b, hb, hp⟩
    · rw [h]
    · cases h1 : findTag doc "h1" <;> simp [h]
    · cases h1 : findTag doc "h1" <;>
        cases h2 : findTagClass doc "span" "d-ib mr-05" <;> simp [h]
    · cases h1 : findTag doc "h1" <;>
        cases h2 : findTagClass doc "span" "d-ib mr-05" <;>
        simp [hb, hp, List.isEmpty]
  simp [fetch_and_store_article, hfetch, hex]

/-- Closed witness for C5: a page with no `<h1>` leaves the empty store
untouched and reports failure. -/
theorem c5_extraction_failure_stores_nothing_witness :
    fetch_and_store_article
      { fetch := some docNoTitle, svc := fun _ => none
        commitArticleFails := false, commitAnalysisFails := false }
      "http://example.com/a" dbEmpty = (none, dbEmpty) :=
  c5_extraction_failure_stores_nothing _ _ _ docNoTitle rfl (Or.inl rfl)

/-- Claim C8: a pipeline run either leaves the articles table exactly as it
was or appends one new row at the end; hence no existing Article row is
ever updated or deleted, whatever the re-fetched page contains. -/
theorem c8_articles_never_updated_or_deleted (env : Env) (url : String)
    (db : DbState) :
    (fetch_and_store_article env url db).2.store.articles = db.store.articles ∨
    ∃ a, (fetch_and_store_article env url db).2.store.articles =
      db.store.articles ++ [a] := by
  unfold fetch_and_store_article
  split
  · exact Or.inl rfl
  split
  · exact Or.inl rfl
  split
  · exact Or.inl rfl
  split
  · split
    · exact Or.inl rfl
    · split
      · exact Or.inl rfl
      · split
        · exact Or.inl rfl
        · split
          · exact Or.inl rfl
          · exact Or.inl rfl
  · split
    · exact Or.inl rfl
    · split
      · exact Or.inr ⟨_, rfl⟩
      · split
        · exact Or.inr ⟨_, rfl⟩
        · split
          · exact Or.inr ⟨_, rfl⟩
          · exact Or.inr ⟨_, rfl⟩

/-- Claim C3: re-running the pipeline on a URL whose Article and
AnalysisResult are both present (with the page still fetching and
extracting) changes nothing — the session state is returned exactly as it
was, no row added or changed — and the stored article's identity is
returned again. -/
theorem c3_fully_processed_rerun_noop (env : Env) (url : String)
    (db : DbState) (doc : Node) (ex : Extracted) (a : Article)
    (r : AnalysisResult) (hb : db.broken = false)
    (hfetch : env.fetch = some doc)
    (hex : extractArticle doc = some ex)
    (hfind : db.store.articles.find? (fun x => x.url = url) = some a)
    (han : db.store.analyses.find? (fun x => x.article_id = a.id) = some r) :
    fetch_and_store_article env url db = (some a.id, db) := by
  simp [fetch_and_store_article, hfetch, hex, hb, hfind, han]

/-- The fully processed database used by the C3 witness. -/
def dbC3 : DbState :=
  { store :=
    { articles := [{ id := 1, url := "u", title := "T"
                     publication_date := "D", body_text := "B3" }]
      analyses := [{ id := 1, article_id := 1, company_name := "C"
                     ceo_name := "E", summary := "S" }] }
    broken := false }

/-- Closed witness for C3 on a one-article, one-analysis database. -/
theorem c3_fully_processed_rerun_noop_witness :
    fetch_and_store_article
      { fetch := some (mkDoc "T" "D" "B3"), svc := fun _ => none
        commitArticleFails := false, commitAnalysisFails := false }
      "u" dbC3 = (some 1, dbC3) :=
  c3_fully_processed_rerun_noop _ "u" dbC3 (mkDoc "T" "D" "B3")
    { title := "T", pub_date := "D", body_text := "B3" }
    { id := 1, url := "u", title := "T", publication_date := "D", body_text := "B3" }
    { id := 1, article_id := 1, company_name := "C", ceo_name := "E", summary := "S" }
    rfl rfl (by decide) (by decide) (by decide)

/-- Claim C7: even when an Article with this URL is already stored, the
pipeline fetches and extracts first; a fetch failure, or any selector no
longer matching on the re-fetched page, makes the run return no identity
and leave the session state untouched — it reaches neither the
analysis-completion step nor the no-op return. -/
theorem c7_existing_article_still_refetches (env : Env) (url : String)
    (db : DbState) (a : Article)
    (_hfind : db.store.articles.find? (fun x => x.url = url) = some a) :
    (env.fetch = none → fetch_and_store_article env url db = (none, db)) ∧
    (∀ doc, env.fetch = some doc → extractArticle doc = none →
      fetch_and_store_article env url db = (none, db)) := by
  constructor
  · intro h
    simp [fetch_and_store_article, h]
  · intro doc h hex
    simp [fetch_and_store_article, h, hex]

/-- Closed witness for C7: with the C3 database (article for "u" present),
a failed fetch and a selector-less page each report failure unchanged. -/
theorem c7_existing_article_still_refetches_witness :
    fetch_and_store_article
      { fetch := none, svc := fun _ => none
        commitArticleFails := false, commitAnalysisFails := false }
      "u" dbC3 = (none, dbC3) ∧
    fetch_and_store_article
      { fetch := some docNoTitle, svc := fun _ => none
        commitArticleFails := false, commitAnalysisFails := false }
      "u" dbC3 = (none, dbC3) :=
  ⟨(c7_existing_article_still_refetches _ "u" dbC3
      { id := 1, url := "u", title := "T", publication_date := "D", body_text := "B3" }
      (by decide)).1 rfl,
   (c7_existing_article_still_refetches _ "u" dbC3
      { id := 1, url := "u", title := "T", publication_date := "D", body_text := "B3" }
      (by decide)).2 docNoTitle rfl rfl⟩

/-- Claim C1 (amended): when the Article exists without analysis, the
pipeline runs the Analyzer on the body text freshly extracted from the
current fetch — not on the stored body — and on analyzer success with a
non-empty parsed mapping (a truthy result at scraper.py line 180) attaches
the resulting AnalysisResult and returns the existing article's
identity. -/
theorem c1_analysis_runs_on_fetched_body (env : Env) (url : String)
    (db : DbState) (doc : Node) (ex : Extracted) (a : Article)
    (m : List (String × String)) (hb : db.broken = false)
    (hfetch : env.fetch = some doc)
    (hex : extractArticle doc = some ex)
    (hfind : db.store.articles.find? (fun x => x.url = url) = some a)
    (hnoan : db.store.analyses.find? (fun r => r.article_id = a.id) = none)
    (han : analyze_article env.svc ex.body_text = some m)
    (hm : m ≠ [])
    (hcf : env.commitAnalysisFails = false) :
    fetch_and_store_article env url db =
      (some a.id, { db with store := { db.store with
        analyses := db.store.analyses ++
          [mkAnalysisResult (nextId (db.store.analyses.map (fun x => x.id)))
            a.id m] } }) := by
  have hm2 : m.isEmpty = false := by
    cases m with
    | nil => exact absurd rfl hm
    | cons x xs => rfl
  simp [fetch_and_store_article, hfetch, hex, hb, hfind, hnoan, han, hm2, hcf]

/-- The stored article whose body text ("OLD") differs from what the page
now serves ("NEW"). -/
def articleOld : Article :=
  { id := 1, url := "u", title := "T", publication_date := "D", body_text := "OLD" }

/-- A database holding `articleOld` and no analysis. -/
def dbC1 : DbState :=
  { store := { articles := [articleOld], analyses := [] }, broken := false }

/-- An analysis service that answers "FromNew" for the freshly served body
and "FromOld" for the stored one, so the two are distinguishable. -/
def svcC1 : String → Option String := fun b =>
  if b = "NEW" then some "\x7b\"company_name\": \"FromNew\"\x7d"
  else some "\x7b\"company_name\": \"FromOld\"\x7d"

/-- The C1 environment: the page now serves body "NEW". -/
def envC1 : Env :=
  { fetch := some (mkDoc "T" "D" "NEW"), svc := svcC1
    commitArticleFails := false, commitAnalysisFails := false }

/-- Counterexample to C1 as stated: the stored body is "OLD" and the
Analyzer on it would report company "FromOld", yet the AnalysisResult the
run attaches carries "FromNew" — the Analyzer was run on the re-fetched
body, not on the stored one. -/
theorem c1_counterexample :
    dbC1.store.articles.map (fun a => a.body_text) = ["OLD"] ∧
    (analyze_article envC1.svc "OLD").map
      (fun m => dictGet m "company_name" "") = some "FromOld" ∧
    (fetch_and_store_article envC1 "u" dbC1).2.store.analyses.map
      (fun r => r.company_name) = ["FromNew"] ∧
    ("FromNew" : String) ≠ "FromOld" := by
  decide

/-- Closed witness for the amended C1 on the "OLD"/"NEW" database. -/
theorem c1_analysis_runs_on_fetched_body_witness :
    fetch_and_store_article envC1 "u" dbC1 =
      (some 1,
       { store :=
           { articles := [articleOld],
             analyses := [{ id := 1, article_id := 1, company_name := "FromNew",
                            ceo_name := "", summary := "" }] },
         broken := false }) :=
  c1_analysis_runs_on_fetched_body envC1 "u" dbC1 (mkDoc "T" "D" "NEW")
    { title := "T", pub_date := "D", body_text := "NEW" } articleOld
    [("company_name", "FromNew")]
    rfl rfl (by decide) (by decide) rfl (by decide) (by decide) rfl

/-- Claim C6: a new URL that extracts fine but whose analysis reply has no
brace span — or a span that is not valid JSON — still gets its Article row
committed; no AnalysisResult row appears and the run still reports the new
article's identity (non-fatal). -/
theorem c6_unparsable_reply_article_still_persisted (env : Env)
    (url : String) (db : DbState) (doc : Node) (ex : Extracted)
    (content : String) (hb : db.broken = false)
    (hfresh : db.store.articles.find? (fun a => a.url = url) = none)
    (hfetch : env.fetch = some doc)
    (hex : extractArticle doc = some ex)
    (hca : env.commitArticleFails = false)
    (hsvc : env.svc ex.body_text = some content)
    (hbad : extractJsonSpan (pyStrip content) = none ∨
      ∃ sp, extractJsonSpan (pyStrip content) = some sp ∧
        parseJsonObject sp = none) :
    fetch_and_store_article env url db =
      (some (nextId (db.store.articles.map (fun a => a.id))),
        { store :=
            { articles := db.store.articles ++
                [{ id := nextId (db.store.articles.map (fun a => a.id)),
                   url := url, title := ex.title,
                   publication_date := ex.pub_date,
                   body_text := ex.body_text }],
              analyses := db.store.analyses },
          broken := false }) := by
  have han : analyze_article env.svc ex.body_text = none := by
    rcases hbad with h | ⟨sp, hsp, hparse⟩
    · simp [analyze_article, hsvc, h]
    · simp [analyze_article, hsvc, hsp, hparse]
  simp [fetch_and_store_article, hfetch, hex, hb, hfresh, hca, han]

/-- The C6 environment: the service replies with prose containing no
braces. -/
def envC6 : Env :=
  { fetch := some (mkDoc "T6" "D6" "B6"), svc := fun _ => some "no json here"
    commitArticleFails := false, commitAnalysisFails := false }

/-- Closed witness for C6 from the empty database. -/
theorem c6_unparsable_reply_article_still_persisted_witness :
    fetch_and_store_article envC6 "http://e/6" dbEmpty =
      (some 1,
       { store :=
           { articles := [{ id := 1, url := "http://e/6", title := "T6",
                            publication_date := "D6", body_text := "B6" }],
             analyses := [] },
         broken := false }) :=
  c6_unparsable_reply_article_still_persisted envC6 "http://e/6" dbEmpty
    (mkDoc "T6" "D6" "B6") { title := "T6", pub_date := "D6", body_text := "B6" }
    "no json here" rfl rfl rfl (by decide) rfl rfl (Or.inl (by decide))

/-- Claim C9 (amended): the AnalysisResult row the pipeline stores for a
new article is built with `get(key, "")` on the parsed mapping, so when
that mapping is non-empty (truthy at scraper.py line 218) each of
company_name, ceo_name and summary defaults to the empty string whenever
the mapping omits that key; an entirely empty mapping is falsy, and then
no AnalysisResult row is stored at all. -/
theorem c9_missing_keys_default_empty (env : Env) (url : String)
    (db : DbState) (doc : Node) (ex : Extracted)
    (m : List (String × String)) (hb : db.broken = false)
    (hfresh : db.store.articles.find? (fun a => a.url = url) = none)
    (hfetch : env.fetch = some doc)
    (hex : extractArticle doc = some ex)
    (hca : env.commitArticleFails = false)
    (han : analyze_article env.svc ex.body_text = some m)
    (hcf : env.commitAnalysisFails = false) :
    (m ≠ [] →
      (fetch_and_store_article env url db).2.store.analyses =
        db.store.analyses ++
          [mkAnalysisResult (nextId (db.store.analyses.map (fun x => x.id)))
            (nextId (db.store.articles.map (fun a => a.id))) m] ∧
      (dictGetOpt m "company_name" = none →
        (mkAnalysisResult (nextId (db.store.analyses.map (fun x => x.id)))
          (nextId (db.store.articles.map (fun a => a.id))) m).company_name = "") ∧
      (dictGetOpt m "ceo_name" = none →
        (mkAnalysisResult (nextId (db.store.analyses.map (fun x => x.id)))
          (nextId (db.store.articles.map (fun a => a.id))) m).ceo_name = "") ∧
      (dictGetOpt m "summary" = none →
        (mkAnalysisResult (nextId (db.store.analyses.map (fun x => x.id)))
          (nextId (db.store.articles.map (fun a => a.id))) m).summary = "")) ∧
    (m = [] →
      (fetch_and_store_article env url db).2.store.analyses =
        db.store.analyses) := by
  constructor
  · intro hm
    have hm2 : m.isEmpty = false := by
      cases m with
      | nil => exact absurd rfl hm
      | cons x xs => rfl
    refine ⟨?_, ?_, ?_, ?_⟩
    · simp [fetch_and_store_article, hfetch, hex, hb, hfresh, hca, han, hm2, hcf]
    · intro h
      simp [mkAnalysisResult, dictGet, h]
    · intro h
      simp [mkAnalysisResult, dictGet, h]
    · intro h
      simp [mkAnalysisResult, dictGet, h]
  · intro hm
    subst hm
    simp [fetch_and_store_article, hfetch, hex, hb, hfresh, hca, han]

/-- The C9 counterexample environment: the service replies with an empty
JSON object, so every key is omitted and the parsed dict is empty. -/
def envC9 : Env :=
  { fetch := some (mkDoc "T9" "D9" "B9"), svc := fun _ => some "\x7b\x7d"
    commitArticleFails := false, commitAnalysisFails := false }

/-- Counterexample to C9 as stated: the reply parses to the empty mapping,
which omits company_name (and every key), yet no AnalysisResult row is
stored at all — an empty dict is falsy at the `if analysis:` guard — so no
field is "stored as the empty string"; the article itself is stored and
its id returned. -/
theorem c9_counterexample :
    analyze_article envC9.svc "B9" = some [] ∧
    dictGetOpt [] "company_name" = none ∧
    (fetch_and_store_article envC9 "http://e/9" dbEmpty).2.store.analyses = [] ∧
    (fetch_and_store_article envC9 "http://e/9" dbEmpty).1 = some 1 := by
  decide

/-- The C9 witness environment: the reply carries only company_name, so
ceo_name and summary are omitted but the mapping is non-empty. -/
def envC9b : Env :=
  { fetch := some (mkDoc "T9" "D9" "B9")
    svc := fun _ => some "\x7b\"company_name\":\"X\"\x7d"
    commitArticleFails := false, commitAnalysisFails := false }

/-- Closed witness for the amended C9: the stored row keeps the supplied
company_name and defaults the two omitted fields to the empty string. -/
theorem c9_missing_keys_default_empty_witness :
    (fetch_and_store_article envC9b "http://e/9" dbEmpty).2.store.analyses =
      [{ id := 1, article_id := 1, company_name := "X",
         ceo_name := "", summary := "" }] ∧
    dictGetOpt [("company_name", "X")] "ceo_name" = none := by
  have h := c9_missing_keys_default_empty envC9b "http://e/9" dbEmpty
    (mkDoc "T9" "D9" "B9") { title := "T9", pub_date := "D9", body_text := "B9" }
    [("company_name", "X")] rfl rfl rfl (by decide) rfl (by decide) rfl
  exact ⟨(h.1 (by decide)).1, rfl⟩

/-- The two schema invariants of section 3 of the design: every analysis
row points at an existing article, and no two analysis rows point at the
same article (at most one AnalysisResult per Article). -/
def storeInv (s : Store) : Prop :=
  (∀ r ∈ s.analyses, ∃ a ∈ s.articles, a.id = r.article_id) ∧
  s.analyses.Pairwise (fun r1 r2 => r1.article_id ≠ r2.article_id)

theorem storeInv_preserved (env : Env) (url : String) (db : DbState)
    (h : storeInv db.store) :
    storeInv (fetch_and_store_article env url db).2.store := by
  obtain ⟨href, hpw⟩ := h
  simp only [fetch_and_store_article]
  split
  · exact ⟨href, hpw⟩
  split
  · exact ⟨href, hpw⟩
  split
  · exact ⟨href, hpw⟩
  split
  next existing hfind =>
    split
    · exact ⟨href, hpw⟩
    next hnone =>
      split
      · exact ⟨href, hpw⟩
      next m hm =>
        split
        · exact ⟨href, hpw⟩
        split
        · exact ⟨href, hpw⟩
        · constructor
          · intro r hr
            rcases List.mem_append.1 hr with hmem | hmem
            · exact href r hmem
            · rw [List.mem_singleton] at hmem
              subst hmem
              exact ⟨existing, List.mem_of_find?_eq_some hfind, rfl⟩
          · rw [List.pairwise_append]
            refine ⟨hpw, by simp, ?_⟩
            intro r1 h1 r2 h2
            rw [List.mem_singleton] at h2
            subst h2
            have hne := List.find?_eq_none.1 hnone r1 h1
            simp only [mkAnalysisResult]
            intro hEq
            exact hne (by simp [hEq])
  next hfnone =>
    split
    · exact ⟨href, hpw⟩
    next hcaf =>
      have hrefA : ∀ (l2 : List Article), ∀ r ∈ db.store.analyses,
          ∃ a ∈ db.store.articles ++ l2, a.id = r.article_id := by
        intro l2 r hr
        obtain ⟨a, ha, hid⟩ := href r hr
        exact ⟨a, List.mem_append_left _ ha, hid⟩
      split
      · exact ⟨hrefA _, hpw⟩
      next m hm =>
        split
        · exact ⟨hrefA _, hpw⟩
        split
        · exact ⟨hrefA _, hpw⟩
        · constructor
          · intro r hr
            rcases List.mem_append.1 hr with hmem | hmem
            · exact hrefA _ r hmem
            · rw [List.mem_singleton] at hmem
              subst hmem
              refine ⟨_, List.mem_append_right _ (List.mem_singleton.2 rfl), rfl⟩
          · rw [List.pairwise_append]
            refine ⟨hpw, by simp, ?_⟩
            intro r1 h1 r2 h2
            rw [List.mem_singleton] at h2
            subst h2
            obtain ⟨a, ha, hid⟩ := href r1 h1
            have hlt := lt_nextId a.id (db.store.articles.map (fun x => x.id))
              (List.mem_map_of_mem _ ha)
            simp only [mkAnalysisResult]
            intro hEq
            rw [← hid] at hEq
            omega

/-- Claim C4: in every session state reachable by any sequence of pipeline
runs from the fresh database, every AnalysisResult refers to an existing
Article and every Article has at most one AnalysisResult. -/
theorem c4_referential_integrity_and_uniqueness (db : DbState)
    (h : Reachable db) : storeInv db.store := by
  induction h with
  | init => exact ⟨by simp, by simp⟩
  | step env url hdb ih => exact storeInv_preserved env url _ ih

/-- Closed witness for C4 at the initial reachable state. -/
theorem c4_referential_integrity_and_uniqueness_witness :
    Reachable dbEmpty ∧ storeInv dbEmpty.store :=
  ⟨Reachable.init, c4_referential_integrity_and_uniqueness dbEmpty Reachable.init⟩

/-- Claim C2 (amended).  Any storage-layer commit failure discards the
failed write and makes the run report failure for that URL, but isolation
between URLs holds only on the new-article path (the analysis commit is
only ever attempted for a truthy — non-empty — parsed mapping):
1. a failed article-insert commit is rolled back — store unchanged, session
   healthy;
2. a failed analysis-insert commit after a new article was committed is
   rolled back — the committed article stays, no analysis row, session
   healthy;
3. a failed analysis-insert commit while attaching analysis to an
   already-existing article is caught without a rollback — store unchanged
   but the shared session is left pending-rollback;
4. on a pending-rollback session every later run fails (no identity, no
   change), however healthy its own URL is — so a storage failure on the
   attach-analysis path does affect every subsequent URL. -/
theorem c2_storage_failure_isolation :
    (∀ (env : Env) (url : String) (db : DbState) (doc : Node) (ex : Extracted),
      db.broken = false → env.fetch = some doc → extractArticle doc = some ex →
      db.store.articles.find? (fun a => a.url = url) = none →
      env.commitArticleFails = true →
      fetch_and_store_article env url db =
        (none, { store := db.store, broken := false })) ∧
    (∀ (env : Env) (url : String) (db : DbState) (doc : Node) (ex : Extracted)
      (m : List (String × String)),
      db.broken = false → env.fetch = some doc → extractArticle doc = some ex →
      db.store.articles.find? (fun a => a.url = url) = none →
      env.commitArticleFails = false →
      analyze_article env.svc ex.body_text = some m → m ≠ [] →
      env.commitAnalysisFails = true →
      fetch_and_store_article env url db =
        (none,
         { store :=
             { articles := db.store.articles ++
                 [{ id := nextId (db.store.articles.map (fun a => a.id)),
                    url := url, title := ex.title,
                    publication_date := ex.pub_date,
                    body_text := ex.body_text }],
               analyses := db.store.analyses },
           broken := false })) ∧
    (∀ (env : Env) (url : String) (db : DbState) (doc : Node) (ex : Extracted)
      (a : Article) (m : List (String × String)),
      db.broken = false → env.fetch = some doc → extractArticle doc = some ex →
      db.store.articles.find? (fun x => x.url = url) = some a →
      db.store.analyses.find? (fun r => r.article_id = a.id) = none →
      analyze_article env.svc ex.body_text = some m → m ≠ [] →
      env.commitAnalysisFails = true →
      fetch_and_store_article env url db =
        (none, { store := db.store, broken := true })) ∧
    (∀ (env : Env) (url : String) (db : DbState) (doc : Node) (ex : Extracted),
      db.broken = true → env.fetch = some doc → extractArticle doc = some ex →
      fetch_and_store_article env url db = (none, db)) := by
  refine ⟨?_, ?_, ?_, ?_⟩
  · intro env url db doc ex hb hfetch hex hfresh hfail
    simp [fetch_and_store_article, hfetch, hex, hb, hfresh, hfail]
  · intro env url db doc ex m hb hfetch hex hfresh hca han hm hcf
    have hm2 : m.isEmpty = false := by
      cases m with
      | nil => exact absurd rfl hm
      | cons x xs => rfl
    simp [fetch_and_store_article, hfetch, hex, hb, hfresh, hca, han, hm2, hcf]
  · intro env url db doc ex a m hb hfetch hex hfind hnoan han hm hcf
    have hm2 : m.isEmpty = false := by
      cases m with
      | nil => exact absurd rfl hm
      | cons x xs => rfl
    simp [fetch_and_store_article, hfetch, hex, hb, hfind, hnoan, han, hm2, hcf]
  · intro env url db doc ex hb hfetch hex
    simp [fetch_and_store_article, hfetch, hex, hb]

/-- The C2 database: one article for url "u1", not yet analyzed, healthy
session. -/
def dbC2 : DbState :=
  { store :=
      { articles := [{ id := 1, url := "u1", title := "T",
                       publication_date := "D", body_text := "B" }],
        analyses := [] },
    broken := false }

/-- A C2 environment whose analysis-insert commit fails. -/
def envC2a : Env :=
  { fetch := some (mkDoc "T" "D" "B")
    svc := fun _ => some "\x7b\"company_name\":\"Acme\"\x7d"
    commitArticleFails := false, commitAnalysisFails := true }

/-- A fully healthy C2 environment: same page and service, no storage
failure. -/
def envC2b : Env :=
  { fetch := some (mkDoc "T" "D" "B")
    svc := fun _ => some "\x7b\"company_name\":\"Acme\"\x7d"
    commitArticleFails := false, commitAnalysisFails := false }

/-- Counterexample to C2 as stated: after url "u1" suffers a storage
failure while its analysis was being attached, url "u2" — processed with a
completely healthy environment that would succeed on a healthy session —
fails and stores nothing; the first URL's storage failure does affect
other URLs. -/
theorem c2_counterexample :
    fetch_and_store_article envC2b "u2"
        (fetch_and_store_article envC2a "u1" dbC2).2 =
      (none, (fetch_and_store_article envC2a "u1" dbC2).2) ∧
    envC2b.commitArticleFails = false ∧
    envC2b.commitAnalysisFails = false ∧
    (fetch_and_store_article envC2b "u2" dbC2).1 = some 2 := by
  decide

/-- A C2 environment whose article-insert commit fails. -/
def envC2c : Env :=
  { fetch := some (mkDoc "T" "D" "B"), svc := fun _ => none
    commitArticleFails := true, commitAnalysisFails := false }

/-- Closed witness for the amended C2, exercising all four conjuncts at
concrete inputs. -/
theorem c2_storage_failure_isolation_witness :
    fetch_and_store_article envC2c "u9" dbEmpty =
      (none, { store := dbEmpty.store, broken := false }) ∧
    (fetch_and_store_article envC2a "u9" dbEmpty).2.store.analyses = [] ∧
    fetch_and_store_article envC2a "u1" dbC2 =
      (none, { store := dbC2.store, broken := true }) ∧
    fetch_and_store_article envC2b "u2" { store := dbC2.store, broken := true } =
      (none, { store := dbC2.store, broken := true }) := by
  refine ⟨?_, ?_, ?_, ?_⟩
  · exact c2_storage_failure_isolation.1 envC2c "u9" dbEmpty (mkDoc "T" "D" "B")
      { title := "T", pub_date := "D", body_text := "B" }
      rfl rfl (by decide) rfl rfl
  · rw [c2_storage_failure_isolation.2.1 envC2a "u9" dbEmpty (mkDoc "T" "D" "B")
      { title := "T", pub_date := "D", body_text := "B" }
      [("company_name", "Acme")] rfl rfl (by decide) rfl rfl (by decide)
      (by decide) rfl]
    rfl
  · exact c2_storage_failure_isolation.2.2.1 envC2a "u1" dbC2 (mkDoc "T" "D" "B")
      { title := "T", pub_date := "D", body_text := "B" }
      { id := 1, url := "u1", title := "T", publication_date := "D", body_text := "B" }
      [("company_name", "Acme")] rfl rfl (by decide) (by decide) rfl (by decide)
      (by decide) rfl
  · exact c2_storage_failure_isolation.2.2.2 envC2b "u2"
      { store := dbC2.store, broken := true } (mkDoc "T" "D" "B")
      { title := "T", pub_date := "D", body_text := "B" }
      rfl rfl (by decide)

end BottomFeeder
